import Mathlib

/-!
Verification of the gridlify CSS-grid generation library.

The embedding follows the JavaScript source:
- src/lib/enum/css-measurments.js      (Measurements)
- src/lib/modules/gap-validator.js     (GapValidator.validate)
- src/lib/modules/grid-generator.js    (GridGenerator)

The repository also imports grid-validator.js (GridValidator) and
row-column-validator.js (RowColumnValidator), whose sources are not
available here; their behavior is modelled from the specification
(sections 4.2 and 4.4) and each such definition is marked
"Modelled from the spec".

JavaScript values relevant to this library are modelled by the inductive
type JSVal (strings, numbers as rationals, arrays, undefined, booleans).
Thrown errors are modelled by an explicit error result carrying the
JavaScript error class (TypeError or plain Error) together with the
message; the spec's conceptual taxonomy kinds of the modelled validators
are carried the same way, with formatError and rangeError classes.
Style-sink writes of the DOM-mutating operations are recorded as an
ordered list of SinkCall records; each operation returns the list of
writes it performed together with the error it raised, if any.
-/

/-- A JavaScript value, as far as this library inspects values:
strings, numbers (modelled as rationals), arrays, undefined, booleans. -/
inductive JSVal where
  | str : String → JSVal
  | num : ℚ → JSVal
  | arr : List JSVal → JSVal
  | undef : JSVal
  | bool : Bool → JSVal


/-- JavaScript error classes raised by the code, plus the spec's
taxonomy kinds used by the spec-modelled validators. -/
inductive ErrClass where
  | typeError : ErrClass
  | plainError : ErrClass
  | formatError : ErrClass
  | rangeError : ErrClass


/-- A raised JavaScript error: its class and its message. -/
structure JSErr where
  cls : ErrClass
  msg : String


/-- JavaScript truthiness, restricted to the values of JSVal.
A number is falsy exactly when it is 0; a string exactly when empty;
undefined is falsy; arrays are truthy. -/
def truthy : JSVal → Bool
  | JSVal.str s => s ≠ ""
  | JSVal.num q => q ≠ 0
  | JSVal.arr _ => true
  | JSVal.undef => false
  | JSVal.bool b => b

/-- Truthiness of a possibly-absent field: an absent field reads as
undefined, which is falsy. -/
def optTruthy : Option JSVal → Bool
  | some v => truthy v
  | none => false

/-- typeof v === 'string'. -/
def isStringVal : JSVal → Bool
  | JSVal.str _ => true
  | _ => false

/-- typeof v === 'number'. -/
def isNumberVal : JSVal → Bool
  | JSVal.num _ => true
  | _ => false

/-- The string content of a value known to be a string (other cases are
unreachable behind an isStringVal guard). -/
def asString : JSVal → String
  | JSVal.str s => s
  | _ => ""

/-- String coercion as it occurs in the template literals of the source;
only string values ever reach coercion on the validated paths. -/
def jsToString : JSVal → String
  | JSVal.str s => s
  | JSVal.num q => toString q.num
  | JSVal.arr _ => ""
  | JSVal.undef => "undefined"
  | JSVal.bool b => toString b

/-- Whether the character list u is a suffix of the character list s. -/
def listIsSuffix (u s : List Char) : Bool :=
  u == s.drop (s.length - u.length)

/-- From css-measurments.js: the closed set of recognized CSS
measurement suffixes. -/
def Measurements : List String := ["px", "fr", "%"]

/-- Modelled from the spec: RowColumnValidator.hasCorrectSuffix
(row-column-validator.js is not in src). True iff the token ends with a
member of Measurements, with longest-match semantics. -/
def hasCorrectSuffix (token : String) : Bool :=
  listIsSuffix ['p', 'x'] token.toList ||
  listIsSuffix ['f', 'r'] token.toList ||
  listIsSuffix ['%'] token.toList

/-- The token with its recognized measurement suffix removed
(longest match first), or none when no suffix is recognized. -/
def unitStripped (cs : List Char) : Option (List Char) :=
  if listIsSuffix ['p', 'x'] cs then some (cs.take (cs.length - 2))
  else if listIsSuffix ['f', 'r'] cs then some (cs.take (cs.length - 2))
  else if listIsSuffix ['%'] cs then some (cs.take (cs.length - 1))
  else none

/-- Numeric value of a list of decimal digit characters. -/
def digitsVal (cs : List Char) : ℕ :=
  List.foldl (fun a c => a * 10 + (c.toNat - 48)) 0 cs

/-- Parses an unsigned decimal numeral (digits, optionally followed by a
point and digits; at least one digit in total). -/
def parseUnsigned (cs : List Char) : Option ℚ :=
  let intPart := cs.takeWhile Char.isDigit
  match cs.dropWhile Char.isDigit with
  | [] => if intPart.isEmpty then none else some (digitsVal intPart)
  | '.' :: frac =>
      if frac.all Char.isDigit then
        if intPart.isEmpty && frac.isEmpty then none
        else some ((digitsVal intPart : ℚ) +
          (digitsVal frac : ℚ) / ((10 : ℚ) ^ frac.length))
      else none
  | _ => none

/-- Parses a signed decimal numeral. -/
def parseDecimal (s : String) : Option ℚ :=
  match s.toList with
  | '-' :: r => (parseUnsigned r).map (fun q => -q)
  | '+' :: r => parseUnsigned r
  | r => parseUnsigned r

/-- Modelled from the spec: RowColumnValidator.isPositiveNumber
(row-column-validator.js is not in src). True iff the numeric part of
the token (everything before the recognized suffix) parses as a real
number that is greater than or equal to 0. -/
def isPositiveNumber (token : String) : Bool :=
  match unitStripped token.toList with
  | some p =>
      match parseDecimal (String.mk p) with
      | some q => decide (0 ≤ q)
      | none => false
  | none => false

/-- From gap-validator.js: GapValidator.validate. Throws a TypeError
(with three distinct messages) when the gap is not a string, lacks a
correct suffix, or its numeric part is not a non-negative number. -/
def gapValidate (gap : JSVal) : Except JSErr Unit :=
  if ¬ isStringVal gap then
    Except.error ⟨ErrClass.typeError, "Gap value must be a string"⟩
  else if ¬ hasCorrectSuffix (asString gap) then
    Except.error ⟨ErrClass.typeError, "Gap value must end with a valid CSS measurement"⟩
  else if ¬ isPositiveNumber (asString gap) then
    Except.error ⟨ErrClass.typeError, "Gap values must be positvie numbers followed by a valid CSS measurement"⟩
  else Except.ok ()

/-- Modelled from the spec: RowColumnValidator.validate
(row-column-validator.js is not in src). Fails with a type error if the
input is not a string nor a sequence of strings, with a format error if
any element lacks a correct suffix, with a range error if any numeric
part is not a non-negative number; succeeds silently otherwise. -/
def rcValidate (v : JSVal) : Except JSErr Unit :=
  match v with
  | JSVal.str t =>
      if ¬ hasCorrectSuffix t then
        Except.error ⟨ErrClass.formatError, "Value must end with a valid CSS measurement"⟩
      else if ¬ isPositiveNumber t then
        Except.error ⟨ErrClass.rangeError, "Value must be a positive number followed by a valid CSS measurement"⟩
      else Except.ok ()
  | JSVal.arr xs =>
      if ¬ xs.all isStringVal then
        Except.error ⟨ErrClass.typeError, "Values must be strings"⟩
      else if ¬ xs.all (fun x => hasCorrectSuffix (asString x)) then
        Except.error ⟨ErrClass.formatError, "Values must end with a valid CSS measurement"⟩
      else if ¬ xs.all (fun x => isPositiveNumber (asString x)) then
        Except.error ⟨ErrClass.rangeError, "Values must be positive numbers followed by a valid CSS measurement"⟩
      else Except.ok ()
  | _ => Except.error ⟨ErrClass.typeError, "Values must be strings"⟩

/-- Modelled from the spec: GridValidator.validateAllParams
(grid-validator.js is not in src). Delegates rows and columns to the
track-list rule and the gaps to the gap rule, fail-fast in field order. -/
def validateAllParams (rows columns rowGap columnGap : JSVal) : Except JSErr Unit :=
  match rcValidate rows with
  | Except.error e => Except.error e
  | Except.ok () =>
      match rcValidate columns with
      | Except.error e => Except.error e
      | Except.ok () =>
          match gapValidate rowGap with
          | Except.error e => Except.error e
          | Except.ok () => gapValidate columnGap

/-- A placement specification: the four destructured fields of
getPositionCss / setPosition, each possibly absent (undefined). -/
structure PlacementSpec where
  startRow : Option JSVal := none
  endRow : Option JSVal := none
  startColumn : Option JSVal := none
  endColumn : Option JSVal := none


/-- Helper of the modelled GridValidator.validatePositions: a present
field must be a number, otherwise a type error is raised. -/
def checkNumField (v : Option JSVal) : Except JSErr Unit :=
  match v with
  | none => Except.ok ()
  | some x =>
      if isNumberVal x then Except.ok ()
      else Except.error ⟨ErrClass.typeError, "Position values must be numbers"⟩

/-- Modelled from the spec: GridValidator.validatePositions
(grid-validator.js is not in src). For each present field, validates it
is a number (type error otherwise) and returns the structure unchanged
(pass-through, no normalization). -/
def validatePositions (p : PlacementSpec) : Except JSErr PlacementSpec :=
  match checkNumField p.startRow with
  | Except.error e => Except.error e
  | Except.ok () =>
      match checkNumField p.startColumn with
      | Except.error e => Except.error e
      | Except.ok () =>
          match checkNumField p.endRow with
          | Except.error e => Except.error e
          | Except.ok () =>
              match checkNumField p.endColumn with
              | Except.error e => Except.error e
              | Except.ok () => Except.ok p

/-- Truncation of a rational toward zero, the effect of JavaScript
parseInt applied to an (ordinary-magnitude) number. -/
def ratTrunc (q : ℚ) : ℤ :=
  if q.num < 0 then -(((-q.num).toNat / q.den : ℕ) : ℤ)
  else ((q.num.toNat / q.den : ℕ) : ℤ)

/-- parseInt applied to a possibly-absent validated placement field;
after validatePositions every present field is a number. -/
def jsParseInt (v : Option JSVal) : ℤ :=
  match v with
  | some (JSVal.num q) => ratTrunc q
  | _ => 0

/-- Array.prototype.join(' ') as used on validated track lists. -/
def jsJoin (v : JSVal) : String :=
  match v with
  | JSVal.arr xs => String.intercalate " " (xs.map jsToString)
  | x => jsToString x

/-- The grid-spec argument of getGridCss / setGrid: the four
destructured fields, each possibly absent (then defaulted). -/
structure GridSpecIn where
  rows : Option JSVal := none
  columns : Option JSVal := none
  rowGap : Option JSVal := none
  columnGap : Option JSVal := none


/-- The rendered grid declaration block, exactly as in the template
literal of getGridCss. -/
def gridBlock (rows columns rowGap columnGap : String) : String :=
  "\x7b \n  display: grid;\n  grid-template-rows: " ++ rows ++
  ";\n  grid-template-columns: " ++ columns ++
  ";\n  grid-row-gap: " ++ rowGap ++
  ";\n  grid-column-gap: " ++ columnGap ++ ";\n\x7d"

/-- From grid-generator.js: GridGenerator.getGridCss. Applies the
destructuring defaults, validates all params, renders the block. -/
def getGridCss (g : GridSpecIn) : Except JSErr String :=
  let rows := g.rows.getD (JSVal.arr [JSVal.str "100%"])
  let columns := g.columns.getD (JSVal.arr [JSVal.str "100%"])
  let rowGap := g.rowGap.getD (JSVal.str "0px")
  let columnGap := g.columnGap.getD (JSVal.str "0px")
  match validateAllParams rows columns rowGap columnGap with
  | Except.error e => Except.error e
  | Except.ok () =>
      Except.ok (gridBlock (jsJoin rows) (jsJoin columns)
        (jsToString rowGap) (jsToString columnGap))

/-- The rendered grid-area declaration, exactly as in the template
literal of getPositionCss. -/
def posBlock (r1 c1 r2 c2 : ℤ) : String :=
  "\x7b grid-area: " ++ toString r1 ++ " / " ++ toString c1 ++
  " / " ++ toString r2 ++ " / " ++ toString c2 ++ "; \x7d"

/-- From grid-generator.js: GridGenerator.getPositionCss. Validates the
positions; only when both startRow and startColumn are truthy renders
the grid-area template, defaulting each falsy end value to its start
value; otherwise returns the empty string. -/
def getPositionCss (p : PlacementSpec) : Except JSErr String :=
  match validatePositions p with
  | Except.error e => Except.error e
  | Except.ok vp =>
      if optTruthy vp.startRow && optTruthy vp.startColumn then
        Except.ok (posBlock (jsParseInt vp.startRow) (jsParseInt vp.startColumn)
          (if ¬ optTruthy vp.endRow then jsParseInt vp.startRow else jsParseInt vp.endRow)
          (if ¬ optTruthy vp.endColumn then jsParseInt vp.startColumn
            else jsParseInt vp.endColumn))
      else
        Except.ok ""

/-- One write into the external style sink: the element identifier the
operation was given, the style property set, and the value written. -/
structure SinkCall where
  target : JSVal
  property : String
  value : String

/-- The observable outcome of a DOM-mutating operation: the style-sink
writes it performed, in order, and the error it raised, if any. -/
def OpResult := List SinkCall × Option JSErr

/-- Modelled from the spec: GridValidator.isString
(grid-validator.js is not in src), the shared type predicate used by
generator-side guards before identifier use. -/
def gvIsString (v : JSVal) : Bool := isStringVal v

/-- From grid-generator.js: GridGenerator.setGrid. Validates all params,
then throws a plain Error when the identifier is not a string, else
writes the five grid properties when the identifier is truthy. -/
def setGridRun (g : GridSpecIn) (htmlIdentifier : JSVal) : OpResult :=
  let rows := g.rows.getD (JSVal.arr [JSVal.str "100%"])
  let columns := g.columns.getD (JSVal.arr [JSVal.str "100%"])
  let rowGap := g.rowGap.getD (JSVal.str "0px")
  let columnGap := g.columnGap.getD (JSVal.str "0px")
  match validateAllParams rows columns rowGap columnGap with
  | Except.error e => ([], some e)
  | Except.ok () =>
      if ¬ isStringVal htmlIdentifier then
        ([], some ⟨ErrClass.plainError, "HTML element identifier must be a string"⟩)
      else if truthy htmlIdentifier then
        ([⟨htmlIdentifier, "display", "grid"⟩,
          ⟨htmlIdentifier, "gridTemplateRows", jsJoin rows⟩,
          ⟨htmlIdentifier, "gridTemplateColumns", jsJoin columns⟩,
          ⟨htmlIdentifier, "gridRowGap", jsToString rowGap⟩,
          ⟨htmlIdentifier, "gridColumnGap", jsToString columnGap⟩], none)
      else ([], none)

/-- From grid-generator.js: GridGenerator.setPosition. Validates the
positions, then writes gridRow and gridColumn only when both startRow
and startColumn are truthy; the identifier is not type-checked. -/
def setPositionRun (p : PlacementSpec) (htmlIdentifier : JSVal) : OpResult :=
  match validatePositions p with
  | Except.error e => ([], some e)
  | Except.ok vp =>
      if optTruthy vp.startRow && optTruthy vp.startColumn then
        ([⟨htmlIdentifier, "gridRow",
            toString (jsParseInt vp.startRow) ++ " / " ++
            toString (if ¬ optTruthy vp.endRow then jsParseInt vp.startRow
              else jsParseInt vp.endRow)⟩,
          ⟨htmlIdentifier, "gridColumn",
            toString (jsParseInt vp.startColumn) ++ " / " ++
            toString (if ¬ optTruthy vp.endColumn then jsParseInt vp.startColumn
              else jsParseInt vp.endColumn)⟩], none)
      else ([], none)

/-- From grid-generator.js: GridGenerator.setRows. Validates the rows,
then writes gridTemplateRows only when the identifier is a string
(silently doing nothing otherwise). -/
def setRowsRun (rows htmlIdentifier : JSVal) : OpResult :=
  match rcValidate rows with
  | Except.error e => ([], some e)
  | Except.ok () =>
      if gvIsString htmlIdentifier then
        ([⟨htmlIdentifier, "gridTemplateRows", jsJoin rows⟩], none)
      else ([], none)

/-- From grid-generator.js: GridGenerator.setColumns. Validates the
columns, then writes gridTemplateColumns only when the identifier is a
string (silently doing nothing otherwise). -/
def setColumnsRun (columns htmlIdentifier : JSVal) : OpResult :=
  match rcValidate columns with
  | Except.error e => ([], some e)
  | Except.ok () =>
      if gvIsString htmlIdentifier then
        ([⟨htmlIdentifier, "gridTemplateColumns", jsJoin columns⟩], none)
      else ([], none)

/-- From grid-generator.js: GridGenerator.setRowGap. Validates the gap,
then writes gridRowGap only when the identifier is a string (silently
doing nothing otherwise). -/
def setRowGapRun (gap htmlIdentifier : JSVal) : OpResult :=
  match gapValidate gap with
  | Except.error e => ([], some e)
  | Except.ok () =>
      if gvIsString htmlIdentifier then
        ([⟨htmlIdentifier, "gridRowGap", jsToString gap⟩], none)
      else ([], none)

/-- From grid-generator.js: GridGenerator.setColumnGap. Validates the
gap, then writes gridColumnGap only when the identifier is a string
(silently doing nothing otherwise). -/
def setColumnGapRun (gap htmlIdentifier : JSVal) : OpResult :=
  match gapValidate gap with
  | Except.error e => ([], some e)
  | Except.ok () =>
      if gvIsString htmlIdentifier then
        ([⟨htmlIdentifier, "gridColumnGap", jsToString gap⟩], none)
      else ([], none)

/-- The writes of an operation outcome. -/
def OpResult.writes (r : OpResult) : List SinkCall := r.1

/-- The raised error of an operation outcome, if any. -/
def OpResult.raised (r : OpResult) : Option JSErr := r.2

/-- Whether an operation outcome raised an error. -/
def OpResult.failed (r : OpResult) : Bool := r.2.isSome

/-- The error class of a validation result, if it failed. -/
def errClassOf : Except JSErr Unit → Option ErrClass
  | Except.error e => some e.cls
  | Except.ok () => none

/-- The error message of a validation result, if it failed. -/
def errMsgOf : Except JSErr Unit → Option String
  | Except.error e => some e.msg
  | Except.ok () => none

/-- A possibly-absent placement field that is numeric when present. -/
def isNumOpt : Option JSVal → Bool
  | none => true
  | some (JSVal.num _) => true
  | some _ => false

/-- A placement spec all of whose present fields are numbers (the shape
the data model gives a PlacementSpec: each field an integer or absent). -/
def numericSpec (p : PlacementSpec) : Bool :=
  isNumOpt p.startRow && isNumOpt p.endRow &&
  isNumOpt p.startColumn && isNumOpt p.endColumn

/-- The rendered value of an end field: the truncated end value when it
is present and truthy (nonzero), the truncated start value otherwise. -/
def endOrStart (start : ℚ) : Option ℚ → ℤ
  | some q => if q ≠ 0 then ratTrunc q else ratTrunc start
  | none => ratTrunc start

/-- Running the full grid validation n further times on the same value. -/
def validateNTimes : ℕ → JSVal → JSVal → JSVal → JSVal → Except JSErr Unit
  | 0, _, _, _, _ => Except.ok ()
  | Nat.succ n, r, c, g1, g2 =>
      match validateAllParams r c g1 g2 with
      | Except.error e => Except.error e
      | Except.ok () => validateNTimes n r c g1 g2

/-! ## Shared lemmas -/

/-- A numeric-or-absent field passes the per-field position check. -/
theorem checkNumField_of_isNumOpt (v : Option JSVal) (h : isNumOpt v = true) :
    checkNumField v = Except.ok () := by
  cases v with
  | none => rfl
  | some x => cases x <;> simp_all [isNumOpt, checkNumField, isNumberVal]

/-- validatePositions is the identity on specs whose present fields are
all numbers. -/
theorem validatePositions_of_numeric (p : PlacementSpec) (h : numericSpec p = true) :
    validatePositions p = Except.ok p := by
  simp only [numericSpec, Bool.and_eq_true] at h
  obtain ⟨⟨⟨h1, h2⟩, h3⟩, h4⟩ := h
  simp [validatePositions, checkNumField_of_isNumOpt _ h1,
    checkNumField_of_isNumOpt _ h3, checkNumField_of_isNumOpt _ h2,
    checkNumField_of_isNumOpt _ h4]

/-- Joining an array of strings with join(' ') is intercalation. -/
theorem jsJoin_strs (xs : List String) :
    jsJoin (JSVal.arr (xs.map JSVal.str)) = String.intercalate " " xs := by
  have hmap : List.map (jsToString ∘ JSVal.str) xs = xs := by
    induction xs with
    | nil => rfl
    | cons a t ih => simp [ih, jsToString]
  simp [jsJoin, List.map_map, hmap]

/-! ## Claims -/

/-- C4: getGridCss with every field omitted succeeds and returns the
declaration block whose grid-template-rows and grid-template-columns
values are 100%, and whose grid-row-gap and grid-column-gap are 0px. -/
theorem getGridCss_all_defaults :
    getGridCss ⟨none, none, none, none⟩ =
      Except.ok (gridBlock "100%" "100%" "0px" "0px") := rfl

/-- C5: for every grid spec whose fields all pass validation, getGridCss
returns the single declaration block containing display: grid and the
four grid properties, with each track list joined by a single space and
the gap strings inserted verbatim. -/
theorem getGridCss_valid_renders (rows cols : List String) (rg cg : String)
    (h : validateAllParams (JSVal.arr (rows.map JSVal.str))
      (JSVal.arr (cols.map JSVal.str)) (JSVal.str rg) (JSVal.str cg) = Except.ok ()) :
    getGridCss ⟨some (JSVal.arr (rows.map JSVal.str)),
      some (JSVal.arr (cols.map JSVal.str)), some (JSVal.str rg), some (JSVal.str cg)⟩ =
      Except.ok (gridBlock (String.intercalate " " rows)
        (String.intercalate " " cols) rg cg) := by
  simp [getGridCss, h, jsJoin_strs, jsToString]

/-- C5 witness: the example with rows 1fr 2fr, columns 50%, gaps 10px
and 5px. -/
theorem getGridCss_valid_renders_witness :
    getGridCss ⟨some (JSVal.arr (["1fr", "2fr"].map JSVal.str)),
      some (JSVal.arr (["50%"].map JSVal.str)),
      some (JSVal.str "10px"), some (JSVal.str "5px")⟩ =
      Except.ok (gridBlock (String.intercalate " " ["1fr", "2fr"])
        (String.intercalate " " ["50%"]) "10px" "5px") :=
  getGridCss_valid_renders ["1fr", "2fr"] ["50%"] "10px" "5px" rfl

/-- C1 counterexample: startRow = 0 and startColumn = 2 are both present
numbers, yet getPositionCss returns the empty string rather than the
grid-area declaration the claim promises. -/
theorem getPositionCss_zero_start_cex :
    getPositionCss ⟨some (JSVal.num 0), none, some (JSVal.num 2), none⟩ =
      Except.ok "" ∧
    (Except.ok "" : Except JSErr String) ≠ Except.ok (posBlock 0 2 0 2) := by
  refine ⟨rfl, fun h => ?_⟩
  exact absurd (Except.ok.inj h) (by decide)

/-- C1 amended: for every placement spec whose startRow and startColumn
are present nonzero numbers (JavaScript truthiness makes 0 behave as
absent), getPositionCss returns the grid-area declaration r1 / c1 / r2 /
c2, where r2 is startRow when endRow is absent (or zero) and c2 is
startColumn when endColumn is absent (or zero). -/
theorem getPositionCss_truthy_starts (sr sc : ℚ) (er ec : Option ℚ)
    (hsr : sr ≠ 0) (hsc : sc ≠ 0) :
    getPositionCss ⟨some (JSVal.num sr), er.map JSVal.num,
        some (JSVal.num sc), ec.map JSVal.num⟩ =
      Except.ok (posBlock (ratTrunc sr) (ratTrunc sc)
        (endOrStart sr er) (endOrStart sc ec)) := by
  cases er <;> cases ec <;>
    simp [getPositionCss, validatePositions, checkNumField, isNumberVal,
      optTruthy, truthy, hsr, hsc, jsParseInt, endOrStart]

/-- C1 witness: the example getPositionCss with startRow 1 and
startColumn 2 and no end values. -/
theorem getPositionCss_truthy_starts_witness :
    getPositionCss ⟨some (JSVal.num 1), none, some (JSVal.num 2), none⟩ =
      Except.ok (posBlock (ratTrunc 1) (ratTrunc 2)
        (endOrStart 1 none) (endOrStart 2 none)) :=
  getPositionCss_truthy_starts 1 2 none none (by decide) (by decide)

/-- C3: for every placement spec (fields numeric or absent, the shape of
the data model) in which startRow or startColumn is absent,
getPositionCss returns the empty string without raising any error. -/
theorem getPositionCss_missing_start_empty (p : PlacementSpec)
    (hnum : numericSpec p = true)
    (habs : p.startRow = none ∨ p.startColumn = none) :
    getPositionCss p = Except.ok "" := by
  have hv := validatePositions_of_numeric p hnum
  have hcond : (optTruthy p.startRow && optTruthy p.startColumn) = false := by
    rcases habs with h | h <;> simp [h, optTruthy]
  simp [getPositionCss, hv, hcond]

/-- C3 witness: the example with only endRow 3 and endColumn 4. -/
theorem getPositionCss_missing_start_empty_witness :
    getPositionCss ⟨none, some (JSVal.num 3), none, some (JSVal.num 4)⟩ =
      Except.ok "" :=
  getPositionCss_missing_start_empty
    ⟨none, some (JSVal.num 3), none, some (JSVal.num 4)⟩ rfl (Or.inl rfl)

/-- C6: with all four placement fields present and nonzero numbers,
getPositionCss renders the four values as integers, truncating
fractional input toward zero. -/
theorem getPositionCss_truncates (sr er sc ec : ℚ)
    (hsr : sr ≠ 0) (hsc : sc ≠ 0) (her : er ≠ 0) (hec : ec ≠ 0) :
    getPositionCss ⟨some (JSVal.num sr), some (JSVal.num er),
        some (JSVal.num sc), some (JSVal.num ec)⟩ =
      Except.ok (posBlock (ratTrunc sr) (ratTrunc sc)
        (ratTrunc er) (ratTrunc ec)) := by
  simp [getPositionCss, validatePositions, checkNumField, isNumberVal,
    optTruthy, truthy, hsr, hsc, her, hec, jsParseInt]

/-- On nonnegative rationals, truncation toward zero is the floor. -/
theorem ratTrunc_of_nonneg (q : ℚ) (h : 0 ≤ q) : ratTrunc q = ⌊q⌋ := by
  have hnum : 0 ≤ q.num := Rat.num_nonneg.mpr h
  rw [Rat.floor_def, ratTrunc, if_neg (by omega)]
  have h2 : q.num = (q.num.toNat : ℤ) := (Int.toNat_of_nonneg hnum).symm
  calc ((q.num.toNat / q.den : ℕ) : ℤ)
      = (q.num.toNat : ℤ) / (q.den : ℤ) := by norm_cast
    _ = q.num / (q.den : ℤ) := by rw [← h2]

/-- C6 witness: the example 1.9 / 3.9 / 2.1 / 4.9 renders as the
integer-truncated values 1 / 2 / 3 / 4. -/
theorem getPositionCss_truncates_witness :
    getPositionCss ⟨some (JSVal.num (19/10)), some (JSVal.num (39/10)),
        some (JSVal.num (21/10)), some (JSVal.num (49/10))⟩ =
      Except.ok "\x7b grid-area: 1 / 2 / 3 / 4; \x7d" := by
  have h := getPositionCss_truncates (19/10) (39/10) (21/10) (49/10)
    (by norm_num) (by norm_num) (by norm_num) (by norm_num)
  rw [h]
  have e1 : ratTrunc (19/10 : ℚ) = 1 := by
    rw [ratTrunc_of_nonneg _ (by norm_num), Int.floor_eq_iff]
    norm_num
  have e2 : ratTrunc (21/10 : ℚ) = 2 := by
    rw [ratTrunc_of_nonneg _ (by norm_num), Int.floor_eq_iff]
    norm_num
  have e3 : ratTrunc (39/10 : ℚ) = 3 := by
    rw [ratTrunc_of_nonneg _ (by norm_num), Int.floor_eq_iff]
    norm_num
  have e4 : ratTrunc (49/10 : ℚ) = 4 := by
    rw [ratTrunc_of_nonneg _ (by norm_num), Int.floor_eq_iff]
    norm_num
  rw [e1, e2, e3, e4]
  rfl

/-- C10: presence of a placement field is decided by JS truthiness, so
the number 0 behaves as absent: a zero startRow or startColumn makes
getPositionCss return the empty string and setPosition perform no
writes (whatever the other fields are), and a zero endRow or endColumn
is replaced by the corresponding start value instead of being rendered,
in getPositionCss and in setPosition alike. -/
theorem position_zero_truthiness :
    (∀ (sc : ℚ) (er ec : Option ℚ),
      getPositionCss ⟨some (JSVal.num 0), er.map JSVal.num,
        some (JSVal.num sc), ec.map JSVal.num⟩ = Except.ok "") ∧
    (∀ (sr : ℚ) (er ec : Option ℚ),
      getPositionCss ⟨some (JSVal.num sr), er.map JSVal.num,
        some (JSVal.num 0), ec.map JSVal.num⟩ = Except.ok "") ∧
    (∀ (sr sc : ℚ) (ec : Option ℚ), sr ≠ 0 → sc ≠ 0 →
      getPositionCss ⟨some (JSVal.num sr), some (JSVal.num 0),
        some (JSVal.num sc), ec.map JSVal.num⟩ =
        Except.ok (posBlock (ratTrunc sr) (ratTrunc sc)
          (ratTrunc sr) (endOrStart sc ec))) ∧
    (∀ (sr sc : ℚ) (er : Option ℚ), sr ≠ 0 → sc ≠ 0 →
      getPositionCss ⟨some (JSVal.num sr), er.map JSVal.num,
        some (JSVal.num sc), some (JSVal.num 0)⟩ =
        Except.ok (posBlock (ratTrunc sr) (ratTrunc sc)
          (endOrStart sr er) (ratTrunc sc))) ∧
    (∀ (ident : JSVal) (sc : ℚ) (er ec : Option ℚ),
      setPositionRun ⟨some (JSVal.num 0), er.map JSVal.num,
        some (JSVal.num sc), ec.map JSVal.num⟩ ident = ([], none)) ∧
    (∀ (ident : JSVal) (sr : ℚ) (er ec : Option ℚ),
      setPositionRun ⟨some (JSVal.num sr), er.map JSVal.num,
        some (JSVal.num 0), ec.map JSVal.num⟩ ident = ([], none)) ∧
    (∀ (ident : JSVal) (sr sc : ℚ) (er ec : Option ℚ), sr ≠ 0 → sc ≠ 0 →
      setPositionRun ⟨some (JSVal.num sr), er.map JSVal.num,
        some (JSVal.num sc), ec.map JSVal.num⟩ ident =
        ([⟨ident, "gridRow",
            toString (ratTrunc sr) ++ " / " ++ toString (endOrStart sr er)⟩,
          ⟨ident, "gridColumn",
            toString (ratTrunc sc) ++ " / " ++ toString (endOrStart sc ec)⟩],
          none)) := by
  refine ⟨?_, ?_, ?_, ?_, ?_, ?_, ?_⟩
  · intro sc er ec
    cases er <;> cases ec <;>
      simp [getPositionCss, validatePositions, checkNumField, isNumberVal,
        optTruthy, truthy]
  · intro sr er ec
    cases er <;> cases ec <;>
      simp [getPositionCss, validatePositions, checkNumField, isNumberVal,
        optTruthy, truthy]
  · intro sr sc ec hsr hsc
    cases ec <;>
      simp [getPositionCss, validatePositions, checkNumField, isNumberVal,
        optTruthy, truthy, hsr, hsc, jsParseInt, endOrStart]
  · intro sr sc er hsr hsc
    cases er <;>
      simp [getPositionCss, validatePositions, checkNumField, isNumberVal,
        optTruthy, truthy, hsr, hsc, jsParseInt, endOrStart]
  · intro ident sc er ec
    cases er <;> cases ec <;>
      simp [setPositionRun, validatePositions, checkNumField, isNumberVal,
        optTruthy, truthy]
  · intro ident sr er ec
    cases er <;> cases ec <;>
      simp [setPositionRun, validatePositions, checkNumField, isNumberVal,
        optTruthy, truthy]
  · intro ident sr sc er ec hsr hsc
    cases er <;> cases ec <;>
      simp [setPositionRun, validatePositions, checkNumField, isNumberVal,
        optTruthy, truthy, hsr, hsc, jsParseInt, endOrStart]

/-- C10 witness: concrete zero-start suppression (both operations, both
start fields) and single-zero-end replacement (both operations). -/
theorem position_zero_truthiness_witness :
    getPositionCss ⟨some (JSVal.num 0), some (JSVal.num 7),
      some (JSVal.num 3), none⟩ = Except.ok "" ∧
    getPositionCss ⟨some (JSVal.num 4), none, some (JSVal.num 0),
      some (JSVal.num 7)⟩ = Except.ok "" ∧
    getPositionCss ⟨some (JSVal.num 1), some (JSVal.num 0),
      some (JSVal.num 2), some (JSVal.num 7)⟩ =
      Except.ok (posBlock (ratTrunc 1) (ratTrunc 2)
        (ratTrunc 1) (endOrStart 2 (some 7))) ∧
    getPositionCss ⟨some (JSVal.num 1), some (JSVal.num 7),
      some (JSVal.num 2), some (JSVal.num 0)⟩ =
      Except.ok (posBlock (ratTrunc 1) (ratTrunc 2)
        (endOrStart 1 (some 7)) (ratTrunc 2)) ∧
    setPositionRun ⟨some (JSVal.num 0), some (JSVal.num 7),
      some (JSVal.num 3), none⟩ (JSVal.str "#el") = ([], none) ∧
    setPositionRun ⟨some (JSVal.num 4), none, some (JSVal.num 0),
      some (JSVal.num 7)⟩ (JSVal.str "#el") = ([], none) ∧
    setPositionRun ⟨some (JSVal.num 1), some (JSVal.num 0),
      some (JSVal.num 2), some (JSVal.num 7)⟩ (JSVal.str "#el") =
      ([⟨JSVal.str "#el", "gridRow",
          toString (ratTrunc 1) ++ " / " ++ toString (endOrStart 1 (some 0))⟩,
        ⟨JSVal.str "#el", "gridColumn",
          toString (ratTrunc 2) ++ " / " ++ toString (endOrStart 2 (some 7))⟩],
        none) :=
  ⟨position_zero_truthiness.1 3 (some 7) none,
   position_zero_truthiness.2.1 4 none (some 7),
   position_zero_truthiness.2.2.1 1 2 (some 7) (by decide) (by decide),
   position_zero_truthiness.2.2.2.1 1 2 (some 7) (by decide) (by decide),
   position_zero_truthiness.2.2.2.2.1 (JSVal.str "#el") 3 (some 7) none,
   position_zero_truthiness.2.2.2.2.2.1 (JSVal.str "#el") 4 none (some 7),
   position_zero_truthiness.2.2.2.2.2.2 (JSVal.str "#el") 1 2 (some 0) (some 7)
     (by decide) (by decide)⟩

/-- C2 counterexample: all three failure cases of GapValidator.validate
raise the same error kind — a TypeError — so the format and range
failures are not distinct in kind from the type failure. -/
theorem gapValidate_same_kind_cex :
    errClassOf (gapValidate (JSVal.num 5)) = some ErrClass.typeError ∧
    errClassOf (gapValidate (JSVal.str "abc")) = some ErrClass.typeError ∧
    errClassOf (gapValidate (JSVal.str "-5px")) = some ErrClass.typeError :=
  ⟨rfl, rfl, rfl⟩

/-- C2 amended: GapValidator.validate distinguishes the three failure
cases (non-string gap, missing suffix, negative or unparseable numeric
part) only by three pairwise-distinct messages; all three are raised as
TypeError, not as three distinct error kinds. -/
theorem gapValidate_three_messages (gap : JSVal) :
    (isStringVal gap = false →
      gapValidate gap =
        Except.error ⟨ErrClass.typeError, "Gap value must be a string"⟩) ∧
    (∀ s, gap = JSVal.str s → hasCorrectSuffix s = false →
      gapValidate gap =
        Except.error ⟨ErrClass.typeError,
          "Gap value must end with a valid CSS measurement"⟩) ∧
    (∀ s, gap = JSVal.str s → hasCorrectSuffix s = true →
        isPositiveNumber s = false →
      gapValidate gap =
        Except.error ⟨ErrClass.typeError,
          "Gap values must be positvie numbers followed by a valid CSS measurement"⟩) ∧
    ("Gap value must be a string" ≠
        "Gap value must end with a valid CSS measurement" ∧
      "Gap value must be a string" ≠
        "Gap values must be positvie numbers followed by a valid CSS measurement" ∧
      "Gap value must end with a valid CSS measurement" ≠
        "Gap values must be positvie numbers followed by a valid CSS measurement") := by
  refine ⟨?_, ?_, ?_, by decide, by decide, by decide⟩
  · intro h
    simp [gapValidate, h]
  · intro s hs h
    subst hs
    simp [gapValidate, isStringVal, asString, h]
  · intro s hs h1 h2
    subst hs
    simp [gapValidate, isStringVal, asString, h1, h2]

/-- C2 witness: the three failure cases at concrete inputs. -/
theorem gapValidate_three_messages_witness :
    gapValidate (JSVal.num 5) =
      Except.error ⟨ErrClass.typeError, "Gap value must be a string"⟩ ∧
    gapValidate (JSVal.str "abc") =
      Except.error ⟨ErrClass.typeError,
        "Gap value must end with a valid CSS measurement"⟩ ∧
    gapValidate (JSVal.str "-5px") =
      Except.error ⟨ErrClass.typeError,
        "Gap values must be positvie numbers followed by a valid CSS measurement"⟩ :=
  ⟨(gapValidate_three_messages (JSVal.num 5)).1 rfl,
   (gapValidate_three_messages (JSVal.str "abc")).2.1 "abc" rfl rfl,
   (gapValidate_three_messages (JSVal.str "-5px")).2.2.1 "-5px" rfl rfl rfl⟩

/-- C7: every DOM-mutating operation validates before any style-sink
write: on every input on which its validation (or the identifier check)
fails, the operation performs zero style-sink writes. -/
theorem mutating_ops_atomic (g : GridSpecIn) (p : PlacementSpec)
    (v ident : JSVal) :
    ((setGridRun g ident).failed = true → (setGridRun g ident).writes = []) ∧
    ((setPositionRun p ident).failed = true →
      (setPositionRun p ident).writes = []) ∧
    ((setRowsRun v ident).failed = true → (setRowsRun v ident).writes = []) ∧
    ((setColumnsRun v ident).failed = true →
      (setColumnsRun v ident).writes = []) ∧
    ((setRowGapRun v ident).failed = true →
      (setRowGapRun v ident).writes = []) ∧
    ((setColumnGapRun v ident).failed = true →
      (setColumnGapRun v ident).writes = []) := by
  refine ⟨?_, ?_, ?_, ?_, ?_, ?_⟩ <;>
    simp only [setGridRun, setPositionRun, setRowsRun, setColumnsRun,
      setRowGapRun, setColumnGapRun, OpResult.failed, OpResult.writes] <;>
    split <;>
    (try split) <;>
    (try split) <;>
    simp

/-- C7 witness: concrete failing calls of all six operations perform
zero style-sink writes. -/
theorem mutating_ops_atomic_witness :
    (setGridRun ⟨some (JSVal.num 3), none, none, none⟩
      (JSVal.str "#el")).writes = [] ∧
    (setPositionRun ⟨some (JSVal.str "x"), none, none, none⟩
      (JSVal.str "#el")).writes = [] ∧
    (setRowsRun (JSVal.num 5) (JSVal.str "#el")).writes = [] ∧
    (setColumnsRun (JSVal.num 5) (JSVal.str "#el")).writes = [] ∧
    (setRowGapRun (JSVal.num 5) (JSVal.str "#el")).writes = [] ∧
    (setColumnGapRun (JSVal.num 5) (JSVal.str "#el")).writes = [] :=
  have h := mutating_ops_atomic ⟨some (JSVal.num 3), none, none, none⟩
    ⟨some (JSVal.str "x"), none, none, none⟩ (JSVal.num 5) (JSVal.str "#el")
  ⟨h.1 rfl, h.2.1 rfl, h.2.2.1 rfl, h.2.2.2.1 rfl,
   h.2.2.2.2.1 rfl, h.2.2.2.2.2 rfl⟩

/-- C8 counterexample: setRows with a valid track list and a non-string
element identifier raises no error at all (it silently performs zero
writes), contradicting the claim that every DOM-mutating operation
raises a type error on a non-string identifier. -/
theorem setRows_nonstring_id_cex :
    setRowsRun (JSVal.arr [JSVal.str "1fr"]) (JSVal.num 42) = ([], none) :=
  rfl

/-- C8 amended: only setGrid rejects a non-string element identifier,
and it raises a plain Error (not a TypeError); setRows, setColumns,
setRowGap and setColumnGap silently perform zero style-sink writes, and
setPosition performs its writes regardless of the identifier type. -/
theorem nonstring_identifier_behavior (ident : JSVal)
    (h : isStringVal ident = false) :
    setGridRun ⟨none, none, none, none⟩ ident =
      ([], some ⟨ErrClass.plainError,
        "HTML element identifier must be a string"⟩) ∧
    setRowsRun (JSVal.arr [JSVal.str "100%"]) ident = ([], none) ∧
    setColumnsRun (JSVal.arr [JSVal.str "100%"]) ident = ([], none) ∧
    setRowGapRun (JSVal.str "0px") ident = ([], none) ∧
    setColumnGapRun (JSVal.str "0px") ident = ([], none) ∧
    setPositionRun ⟨some (JSVal.num 1), none, some (JSVal.num 2), none⟩
      ident =
      ([⟨ident, "gridRow", "1 / 1"⟩, ⟨ident, "gridColumn", "2 / 2"⟩], none) := by
  cases ident with
  | str s => simp [isStringVal] at h
  | num q => exact ⟨rfl, rfl, rfl, rfl, rfl, rfl⟩
  | arr xs => exact ⟨rfl, rfl, rfl, rfl, rfl, rfl⟩
  | undef => exact ⟨rfl, rfl, rfl, rfl, rfl, rfl⟩
  | bool b => exact ⟨rfl, rfl, rfl, rfl, rfl, rfl⟩

/-- C8 witness: the amended behavior at the identifier 42. -/
theorem nonstring_identifier_behavior_witness :
    setGridRun ⟨none, none, none, none⟩ (JSVal.num 42) =
      ([], some ⟨ErrClass.plainError,
        "HTML element identifier must be a string"⟩) ∧
    setRowsRun (JSVal.arr [JSVal.str "100%"]) (JSVal.num 42) = ([], none) ∧
    setColumnsRun (JSVal.arr [JSVal.str "100%"]) (JSVal.num 42) = ([], none) ∧
    setRowGapRun (JSVal.str "0px") (JSVal.num 42) = ([], none) ∧
    setColumnGapRun (JSVal.str "0px") (JSVal.num 42) = ([], none) ∧
    setPositionRun ⟨some (JSVal.num 1), none, some (JSVal.num 2), none⟩
      (JSVal.num 42) =
      ([⟨JSVal.num 42, "gridRow", "1 / 1"⟩,
        ⟨JSVal.num 42, "gridColumn", "2 / 2"⟩], none) :=
  nonstring_identifier_behavior (JSVal.num 42) rfl

/-- C9: validation is idempotent and non-mutating: a grid spec that
passes validateAllParams once passes any number of further runs, and
validatePositions always returns its input value unchanged. -/
theorem validation_idempotent (r c g1 g2 : JSVal)
    (h : validateAllParams r c g1 g2 = Except.ok ()) :
    (∀ n, validateNTimes n r c g1 g2 = Except.ok ()) ∧
    (∀ (p q : PlacementSpec), validatePositions p = Except.ok q → q = p) := by
  constructor
  · intro n
    induction n with
    | zero => rfl
    | succ n ih => simp [validateNTimes, h, ih]
  · intro p q hq
    cases h1 : checkNumField p.startRow <;>
      cases h2 : checkNumField p.startColumn <;>
      cases h3 : checkNumField p.endRow <;>
      cases h4 : checkNumField p.endColumn <;>
      simp_all [validatePositions]

/-- C9 witness: the default grid spec revalidates three further times,
and validatePositions passes a concrete spec through unchanged. -/
theorem validation_idempotent_witness :
    validateNTimes 3 (JSVal.arr [JSVal.str "100%"]) (JSVal.arr [JSVal.str "100%"])
      (JSVal.str "0px") (JSVal.str "0px") = Except.ok () ∧
    (⟨some (JSVal.num 1), none, some (JSVal.num 2), none⟩ : PlacementSpec) =
      ⟨some (JSVal.num 1), none, some (JSVal.num 2), none⟩ :=
  ⟨(validation_idempotent (JSVal.arr [JSVal.str "100%"])
      (JSVal.arr [JSVal.str "100%"]) (JSVal.str "0px") (JSVal.str "0px") rfl).1 3,
   (validation_idempotent (JSVal.arr [JSVal.str "100%"])
      (JSVal.arr [JSVal.str "100%"]) (JSVal.str "0px") (JSVal.str "0px") rfl).2
      ⟨some (JSVal.num 1), none, some (JSVal.num 2), none⟩
      ⟨some (JSVal.num 1), none, some (JSVal.num 2), none⟩ rfl⟩
